import Mathlib

/-!
Verification development for the Rick-and-Morty catalog browser.

The repository holds two source files:
 * `src/services/api.ts` — the Catalog Client (`getCharacters`), which builds
   the outgoing query parameters with `URLSearchParams` and appends a filter
   field only when it is truthy (JavaScript: `if (filters.status) ...`).
 * `src/pages/index.tsx` — two revisions of the page component, separated by a
   revision marker.  The first revision filters a client-side list
   (`applyFilters`) and debounces a name-only fetch; the second revision
   (`Home`, `handleFilter`, `handlePageChange`, `getServerSideProps`) drives
   status/gender/name/page through the remote service and the URL.

Everything below is a shallow embedding of that code: JavaScript objects
become Lean functions `String → Option String`, JavaScript truthiness of a
string is the test against `""`, `parseInt` becomes `parseIntJs` with `none`
standing for `NaN`, asynchronous fetch outcomes become an explicit
`Except Unit ApiResponse` argument, and the event-loop interleavings of the
second revision become traces over a small step function.
-/

namespace RickMorty

/-! ## Data model (`src/services/api.ts`) -/

/-- A link record (`origin` / `location` fields of `Character`). -/
structure CharLink where
  name : String
  url : String
deriving DecidableEq, Repr

/-- The `Character` interface of `src/services/api.ts`. -/
structure Character where
  id : Int
  name : String
  status : String
  species : String
  type : String
  gender : String
  origin : CharLink
  location : CharLink
  image : String
  episode : List String
  url : String
  created : String
deriving DecidableEq, Repr

/-- The `info` part of `ApiResponse`. -/
structure PageInfo where
  count : Int
  pages : Int
  next : Option String
  prev : Option String
deriving DecidableEq, Repr

/-- The `ApiResponse` interface of `src/services/api.ts`. -/
structure ApiResponse where
  info : PageInfo
  results : List Character
deriving DecidableEq, Repr

/-- The optional filter argument of `getCharacters`
(`{ status?: string; gender?: string; name?: string }`); `none` is an absent
field (`undefined`). -/
structure Filters where
  status : Option String := none
  gender : Option String := none
  name : Option String := none
deriving DecidableEq, Repr

/-- One conditional `params.append(key, v)` of `getCharacters`: JavaScript
`if (filters.x) params.append(key, filters.x)`.  An absent field
(`undefined`) and the empty string are the only falsy strings, so the pair is
appended exactly when the field is present and non-empty. -/
def appendIf (key : String) (v : Option String) : List (String × String) :=
  match v with
  | none => []
  | some s => if s = "" then [] else [(key, s)]

/-- The outgoing query parameters built by `getCharacters` in
`src/services/api.ts`: `URLSearchParams({ page: page.toString() })` followed
by the three conditional appends, in source order. -/
def getCharactersParams (page : Int) (filters : Filters) : List (String × String) :=
  ("page", toString page) ::
    (appendIf "status" filters.status ++
      appendIf "gender" filters.gender ++
        appendIf "name" filters.name)

/-- Claim C5: for every page and filter combination passed to `getCharacters`,
the `page` parameter is always included, and each filter key appears in the
outgoing parameters exactly when the corresponding field is present and
non-empty, carrying that field's value — so an absent or empty filter field
is entirely omitted and never sent as an empty-string parameter. -/
theorem getCharacters_omits_empty_filters (page : Int) (filters : Filters) :
    ("page", toString page) ∈ getCharactersParams page filters
    ∧ (∀ v, ("status", v) ∈ getCharactersParams page filters ↔
        (filters.status = some v ∧ v ≠ ""))
    ∧ (∀ v, ("gender", v) ∈ getCharactersParams page filters ↔
        (filters.gender = some v ∧ v ≠ ""))
    ∧ (∀ v, ("name", v) ∈ getCharactersParams page filters ↔
        (filters.name = some v ∧ v ≠ "")) := by
  refine ⟨by simp [getCharactersParams], ?_, ?_, ?_⟩ <;> intro v <;>
    simp only [getCharactersParams, appendIf, List.mem_cons, List.mem_append,
      Prod.mk.injEq] <;>
    rcases hs : filters.status with _ | s <;>
    rcases hg : filters.gender with _ | g <;>
    rcases hn : filters.name with _ | n <;>
    simp <;> aesop

/-! ## First revision of the page (`src/pages/index.tsx`, first file half)

The first revision keeps the full page-1 character list in `allCharacters`
and computes `filteredCharacters` client-side in `applyFilters`. -/

/-- Prefix test over character lists (helper for the JavaScript
`String.prototype.includes` model). -/
def leadMatch : List Char → List Char → Bool
  | [], _ => true
  | _ :: _, [] => false
  | a :: as, b :: bs => a == b && leadMatch as bs

/-- Substring containment over character lists. -/
def containsSeg : List Char → List Char → Bool
  | hay, needle =>
    match hay with
    | [] => needle.isEmpty
    | _ :: t => leadMatch needle hay || containsSeg t needle

/-- Model of JavaScript `hay.includes(needle)`. -/
def jsIncludes (hay needle : String) : Bool :=
  containsSeg hay.data needle.data

/-- Model of `applyFilters` in the first revision: starting from `allCharacters`,
successively filter by `status` (case-insensitive equality), `gender`
(case-insensitive equality) and `searchTerm` (case-insensitive name
containment), each stage applied only when the corresponding value is truthy
(non-empty). -/
def applyFilters (allCharacters : List Character)
    (status gender searchTerm : String) : List Character :=
  let result := allCharacters
  let result := if status == "" then result else
    result.filter (fun char => char.status.toLower == status.toLower)
  let result := if gender == "" then result else
    result.filter (fun char => char.gender.toLower == gender.toLower)
  let result := if searchTerm == "" then result else
    result.filter (fun char => jsIncludes char.name.toLower searchTerm.toLower)
  result

/-- Claim C10: the displayed list is exactly the sublist of `allCharacters`
whose elements pass every active filter — status equal case-insensitively
when `status` is non-empty, gender equal case-insensitively when `gender` is
non-empty, name containing `searchTerm` case-insensitively when `searchTerm`
is non-empty — and with no active filter it is `allCharacters` itself. -/
theorem applyFilters_is_conjunctive_filter
    (allCharacters : List Character) (status gender searchTerm : String) :
    applyFilters allCharacters status gender searchTerm
      = allCharacters.filter (fun char =>
          (status == "" || char.status.toLower == status.toLower)
          && (gender == "" || char.gender.toLower == gender.toLower)
          && (searchTerm == "" || jsIncludes char.name.toLower searchTerm.toLower))
    ∧ applyFilters allCharacters "" "" "" = allCharacters := by
  constructor
  · cases hs : (status == "") <;> cases hg : (gender == "") <;>
      cases hn : (searchTerm == "") <;>
      simp [applyFilters, hs, hg, hn, List.filter_filter, Bool.and_comm,
        Bool.and_left_comm]
  · simp [applyFilters]

/-- State of the first revision's `Home` component (only the fields touched
by `handleFilter`; `filteredCharacters` is derived by `applyFilters`). -/
structure Home1State where
  allCharacters : List Character
  status : String
  gender : String
  searchTerm : String
  isLoading : Bool
deriving DecidableEq, Repr

/-- The request the first revision's `handleFilter` issues:
`getCharacters(1, { name: searchTerm })` — always page 1, name only. -/
def handleFilterRev1Request (s : Home1State) : Int × Filters :=
  (1, { name := some s.searchTerm })

/-- The first revision's `handleFilter`, run to completion with the fetch
outcome made explicit (`Except.error` models a rejected `getCharacters`
promise).  `try` sets `allCharacters` to the response's results, `catch`
sets it to `[]`, `finally` clears `isLoading`.  Totality of this function is
the no-exception-escapes property: both outcomes resolve to a state. -/
def handleFilterRev1 (s : Home1State) (outcome : Except Unit ApiResponse) :
    Home1State :=
  match outcome with
  | .ok newData => { s with allCharacters := newData.results, isLoading := false }
  | .error _ => { s with allCharacters := [], isLoading := false }

/-! ## Second revision of the page (`src/pages/index.tsx`, second file half)

The second revision's `Home` holds `characters`, `status`, `gender`,
`searchTerm`, `isLoading` in React state and receives `currentPage` as a
prop hydrated from the URL by `getServerSideProps`. -/

/-- State of the second revision's `Home` component plus its `currentPage`
prop. -/
structure HomeState where
  characters : List Character
  status : String
  gender : String
  searchTerm : String
  isLoading : Bool
  currentPage : Int
deriving DecidableEq, Repr

/-- Model of `setStatus` from the status `<select>`: updates `status` only. -/
def setStatus (s : HomeState) (value : String) : HomeState :=
  { s with status := value }

/-- Model of `setGender` from the gender `<select>`: updates `gender` only. -/
def setGender (s : HomeState) (value : String) : HomeState :=
  { s with gender := value }

/-- Model of `setSearchTerm` from the search `<input>`: updates `searchTerm` only. -/
def setSearchTerm (s : HomeState) (value : String) : HomeState :=
  { s with searchTerm := value }

/-- The request the second revision's `handleFilter` issues:
`getCharacters(currentPage, { status, gender, name: searchTerm })`.  All
three filter fields are passed (possibly empty — `getCharacters` omits the
empty ones); the page is the unchanged `currentPage` prop. -/
def handleFilterRequest (s : HomeState) : Int × Filters :=
  (s.currentPage, { status := some s.status, gender := some s.gender,
                    name := some s.searchTerm })

/-- A `router.push` call: target pathname, query object (a JavaScript object
modelled as a partial map), and whether the `shallow` option was passed. -/
structure UrlWrite where
  pathname : String
  query : String → Option String
  shallow : Bool

/-- The query object `handleFilter` pushes on success:
`{ page: currentPage, ...(status && { status }), ...(gender && { gender }),
...(searchTerm && { name: searchTerm }) }` — a truthy-guarded spread, so an
empty filter field contributes no key at all. -/
def handleFilterQuery (s : HomeState) : String → Option String := fun k =>
  if k = "page" then some (toString s.currentPage)
  else if k = "status" then (if s.status = "" then none else some s.status)
  else if k = "gender" then (if s.gender = "" then none else some s.gender)
  else if k = "name" then (if s.searchTerm = "" then none else some s.searchTerm)
  else none

/-- The second revision's `handleFilter`, run to completion with the fetch
outcome explicit.  On success it sets `characters` to the response's results
and performs a shallow `router.push` of the current filter/page state; on
failure it only logs (`console.error`) — `characters` keeps its previous
value and no URL write happens.  `finally` clears `isLoading` either way;
totality models that no exception escapes. -/
def handleFilter (s : HomeState) (outcome : Except Unit ApiResponse) :
    HomeState × Option UrlWrite :=
  match outcome with
  | .ok filteredData =>
      ({ s with characters := filteredData.results, isLoading := false },
       some { pathname := "/", query := handleFilterQuery s, shallow := true })
  | .error _ =>
      ({ s with isLoading := false }, none)

/-- Model of `handlePageChange`: `router.push({ pathname: '/', query: {
...router.query, page: newPage } })` — the spread of the current router
query with `page` overwritten, and no `shallow` option (a full
navigation). -/
def handlePageChange (routerQuery : String → Option String) (newPage : Int) :
    UrlWrite :=
  { pathname := "/"
    query := fun k => if k = "page" then some (toString newPage) else routerQuery k
    shallow := false }

/-- The `disabled` condition of the previous-page button:
`currentPage === 1`. -/
def prevDisabled (currentPage : Int) : Bool :=
  currentPage == 1

/-- The `disabled` condition of the next-page button:
`currentPage === initialData.info.pages`. -/
def nextDisabled (currentPage pages : Int) : Bool :=
  currentPage == pages

/-- The page the previous-page button requests: `currentPage - 1`. -/
def prevTarget (currentPage : Int) : Int := currentPage - 1

/-- The page the next-page button requests: `currentPage + 1`. -/
def nextTarget (currentPage : Int) : Int := currentPage + 1

/-! ## Concrete sample data for counterexamples and witnesses -/

/-- A sample character. -/
def rickC : Character :=
  { id := 1, name := "Rick Sanchez", status := "Alive", species := "Human",
    type := "", gender := "Male", origin := ⟨"Earth (C-137)", ""⟩,
    location := ⟨"Citadel of Ricks", ""⟩, image := "rick.jpeg",
    episode := [], url := "", created := "" }

/-- Another sample character, distinct from `rickC`. -/
def mortyC : Character :=
  { id := 2, name := "Morty Smith", status := "Alive", species := "Human",
    type := "", gender := "Male", origin := ⟨"unknown", ""⟩,
    location := ⟨"Citadel of Ricks", ""⟩, image := "morty.jpeg",
    episode := [], url := "", created := "" }

/-- A sample component state sitting on page 3 with no active filters. -/
def pageThreeState : HomeState :=
  { characters := [], status := "", gender := "", searchTerm := "",
    isLoading := false, currentPage := 3 }

/-- A sample component state mid-load with one character displayed. -/
def loadedState : HomeState :=
  { characters := [rickC], status := "", gender := "", searchTerm := "rick",
    isLoading := true, currentPage := 1 }

/-- Claim C3, evaluated on the code at the failing input: in the second
revision the page lives in the `currentPage` prop, which none of
`setStatus`, `setGender`, `setSearchTerm` touches, so after a filter edit at
page 3 the next issued fetch still requests page 3, not page 1.  (Only the
first revision's `handleFilter` always requests page 1, because it tracks no
page at all.) -/
theorem filter_edit_does_not_reset_page :
    (handleFilterRequest (setStatus pageThreeState "alive")).1 = 3
    ∧ (handleFilterRequest (setGender pageThreeState "female")).1 = 3
    ∧ (handleFilterRequest (setSearchTerm pageThreeState "rick")).1 = 3
    ∧ ((3 : Int) = 1 → False)
    ∧ (∀ s1 : Home1State, (handleFilterRev1Request s1).1 = 1) := by
  exact ⟨rfl, rfl, rfl, by decide, fun _ => rfl⟩

/-- Claim C4 counterexample: in the second revision a failed fetch leaves
`characters` at its previous (non-empty) value — the `catch` block only
logs, it does not empty the result set as the claim requires. -/
theorem fetch_failure_keeps_results_counterexample :
    (handleFilter loadedState (Except.error ())).1.characters = [rickC]
    ∧ ([rickC] : List Character) ≠ [] := by
  exact ⟨rfl, by decide⟩

/-- Claim C4 as amended: whenever a fetch fails, `isLoading` becomes false
and no exception escapes (the handler is total: every outcome resolves to a
state), but only the first revision empties the result set — the second
revision keeps the previous `characters` and performs no URL write. -/
theorem fetch_failure_clears_loading :
    ∀ (s : HomeState) (s1 : Home1State),
      (handleFilter s (Except.error ())).1.isLoading = false
      ∧ (handleFilter s (Except.error ())).1.characters = s.characters
      ∧ (handleFilter s (Except.error ())).2 = none
      ∧ (handleFilterRev1 s1 (Except.error ())).isLoading = false
      ∧ (handleFilterRev1 s1 (Except.error ())).allCharacters = [] := by
  exact fun s s1 => ⟨rfl, rfl, rfl, rfl, rfl⟩

/-- Claim C7: a successful run of `handleFilter` applies the response and
performs exactly one URL write — shallow, to `/`, with `page` always present
and `status`/`gender`/`name` present exactly when non-empty, each carrying
the state's current value — while a failed run performs no URL write. -/
theorem url_write_iff_fetch_applied :
    ∀ (s : HomeState) (d : ApiResponse),
      (handleFilter s (Except.ok d)).1.characters = d.results
      ∧ ((handleFilter s (Except.ok d)).2).map UrlWrite.shallow = some true
      ∧ ((handleFilter s (Except.ok d)).2).map UrlWrite.pathname = some "/"
      ∧ ((handleFilter s (Except.ok d)).2).map (fun w => w.query "page")
          = some (some (toString s.currentPage))
      ∧ ((handleFilter s (Except.ok d)).2).map (fun w => w.query "status")
          = some (if s.status = "" then none else some s.status)
      ∧ ((handleFilter s (Except.ok d)).2).map (fun w => w.query "gender")
          = some (if s.gender = "" then none else some s.gender)
      ∧ ((handleFilter s (Except.ok d)).2).map (fun w => w.query "name")
          = some (if s.searchTerm = "" then none else some s.searchTerm)
      ∧ (handleFilter s (Except.error ())).2 = none := by
  intro s d
  refine ⟨rfl, rfl, rfl, ?_, ?_, ?_, ?_, rfl⟩ <;>
    simp [handleFilter, handleFilterQuery]

/-- Claim C9 counterexample: with `pageCount = 0` the next-page button is
not disabled at page 1 (`1 === 0` is false), and clicking it requests page
2 — the page does not stay at 1. -/
theorem next_button_enabled_at_pagecount_zero :
    nextDisabled 1 0 = false ∧ nextTarget 1 = 2 ∧ ((2 : Int) = 1 → False) := by
  decide

/-- Claim C9 as amended: `handlePageChange` rewrites only the `page` key of
the router query; when `pageCount > 0` and the current page lies in
`[1, pageCount]`, an enabled pagination button only produces pages inside
`[1, pageCount]`; when `pageCount = 0` only the previous button is disabled
at page 1 (the next button can still leave page 1). -/
theorem page_buttons_stay_in_range :
    ∀ (routerQuery : String → Option String) (newPage : Int) (k : String)
      (p n : Int),
      (k ≠ "page" → (handlePageChange routerQuery newPage).query k = routerQuery k)
      ∧ (handlePageChange routerQuery newPage).query "page"
          = some (toString newPage)
      ∧ (0 < n → 1 ≤ p → p ≤ n →
          (prevDisabled p = false → 1 ≤ prevTarget p ∧ prevTarget p ≤ n)
          ∧ (nextDisabled p n = false → 1 ≤ nextTarget p ∧ nextTarget p ≤ n))
      ∧ prevDisabled 1 = true := by
  intro routerQuery newPage k p n
  refine ⟨?_, by simp [handlePageChange], ?_, by decide⟩
  · intro hk; simp [handlePageChange, hk]
  · intro hn h1 h2
    constructor
    · intro hp
      have hne : p ≠ 1 := by
        simpa [prevDisabled, beq_eq_false_iff_ne] using hp
      unfold prevTarget; omega
    · intro hp
      have hne : p ≠ n := by
        simpa [nextDisabled, beq_eq_false_iff_ne] using hp
      unfold nextTarget; omega

/-- Witness for `page_buttons_stay_in_range` at a concrete input: at page 2
of 3 with an enabled previous button, the produced page 1 stays in range,
and a non-`page` key survives `handlePageChange` unchanged. -/
theorem page_buttons_stay_in_range_witness :
    ((1 : Int) ≤ prevTarget 2 ∧ prevTarget 2 ≤ 3)
    ∧ (handlePageChange (fun _ => some "alive") 5).query "status" = some "alive" := by
  have h := page_buttons_stay_in_range (fun _ => some "alive") 5 "status" 2 3
  exact ⟨(h.2.2.1 (by decide) (by decide) (by decide)).1 (by decide),
    h.1 (by decide)⟩

/-! ## The debounce gate (`debouncedFilter` of both revisions)

Both revisions wrap `handleFilter` in `debounce(..., 300)` (trailing edge)
and call the debounced function from a `useEffect` keyed on the filter
state.  On every edit the effect cleanup cancels the previous (still
pending) timer and the effect body arms a fresh one whose closure captures
the state as of that edit; a timer whose 300 ms elapsed before the next edit
has already fired.  Times are in milliseconds. -/

/-- The filter state captured by one `handleFilter` closure. -/
structure Snap where
  status : String
  gender : String
  name : String
  page : Int
deriving DecidableEq, Repr

/-- The wait passed to `debounce` in `src/pages/index.tsx`: 300 ms. -/
def debounceMs : Nat := 300

/-- Debounce machinery state: the armed timer (fire deadline and captured
snapshot), if any, plus the fetches fired so far (fire time and
snapshot). -/
structure DebState where
  pending : Option (Nat × Snap)
  fired : List (Nat × Snap)
deriving DecidableEq, Repr

/-- One edit at time `t`: a previously armed timer whose deadline already
passed has fired by now; otherwise the effect cleanup cancels it; the effect
body then arms a new timer at `t + wait` capturing the fresh state. -/
def debEdit (wait : Nat) (s : DebState) (t : Nat) (snap : Snap) : DebState :=
  let s : DebState :=
    match s.pending with
    | some (d, sn) =>
        if d ≤ t then { pending := none, fired := s.fired ++ [(d, sn)] }
        else { s with pending := none }
    | none => s
  { pending := some (t + wait, snap), fired := s.fired }

/-- Process a timeline of edits in order. -/
def debRun (wait : Nat) (s : DebState) : List (Nat × Snap) → DebState
  | [] => s
  | (t, snap) :: rest => debRun wait (debEdit wait s t snap) rest

/-- Let time run out after the last edit: the still-armed timer fires. -/
def debFlush (s : DebState) : List (Nat × Snap) :=
  match s.pending with
  | some (d, sn) => s.fired ++ [(d, sn)]
  | none => s.fired

/-- Edits are chronological and each occurs strictly within `wait` of the
previous one. -/
def chainOk (wait : Nat) : List (Nat × Snap) → Bool
  | [] => true
  | [_] => true
  | (t1, _) :: (t2, s2) :: rest =>
      t1 ≤ t2 && t2 < t1 + wait && chainOk wait ((t2, s2) :: rest)

/-- Running a within-window edit chain never fires a timer mid-chain: it
leaves `fired` untouched and one timer armed for the last edit. -/
theorem debRun_chain (wait : Nat) :
    ∀ (edits : List (Nat × Snap)) (t : Nat) (sn : Snap)
      (pend : Option (Nat × Snap)) (fired : List (Nat × Snap)),
      chainOk wait ((t, sn) :: edits) = true →
      (∀ d x, pend = some (d, x) → t < d) →
      debRun wait ⟨pend, fired⟩ ((t, sn) :: edits)
        = ⟨some ((((t, sn) :: edits).getLast (List.cons_ne_nil _ _)).1 + wait,
                 (((t, sn) :: edits).getLast (List.cons_ne_nil _ _)).2),
           fired⟩ := by
  intro edits
  induction edits with
  | nil =>
      intro t sn pend fired _ hpend
      rcases pend with _ | ⟨d, x⟩
      · rfl
      · have hd : ¬ d ≤ t := by
          have := hpend d x rfl
          omega
        simp [debRun, debEdit, hd, List.getLast]
  | cons e rest ih =>
      intro t sn pend fired hchain hpend
      rcases e with ⟨t2, s2⟩
      have hc : (t ≤ t2 ∧ t2 < t + wait) ∧ chainOk wait ((t2, s2) :: rest) = true := by
        simpa [chainOk, Bool.and_eq_true] using hchain
      have hstep : debEdit wait ⟨pend, fired⟩ t sn = ⟨some (t + wait, sn), fired⟩ := by
        rcases pend with _ | ⟨d, x⟩
        · rfl
        · have hd : ¬ d ≤ t := by
            have := hpend d x rfl
            omega
          simp [debEdit, hd]
      have htail := ih t2 s2 (some (t + wait, sn)) fired hc.2
        (by intro d x hx; injection hx with hx; cases hx; exact hc.1.2)
      calc debRun wait ⟨pend, fired⟩ ((t, sn) :: (t2, s2) :: rest)
          = debRun wait (debEdit wait ⟨pend, fired⟩ t sn) ((t2, s2) :: rest) := rfl
        _ = debRun wait ⟨some (t + wait, sn), fired⟩ ((t2, s2) :: rest) := by rw [hstep]
        _ = _ := by rw [htail]; simp [List.getLast_cons]

/-- Claim C2: for every non-empty sequence of filter/page edits in which
each edit falls strictly within the 300 ms debounce window of the previous
one, exactly one fetch is issued, it fires one window after the last edit,
and it captures the filter state as of the last edit. -/
theorem debounced_fetch_once_with_last_state :
    ∀ (t : Nat) (sn : Snap) (edits : List (Nat × Snap)),
      chainOk debounceMs ((t, sn) :: edits) = true →
      debFlush (debRun debounceMs ⟨none, []⟩ ((t, sn) :: edits))
        = [((((t, sn) :: edits).getLast (List.cons_ne_nil _ _)).1 + debounceMs,
            (((t, sn) :: edits).getLast (List.cons_ne_nil _ _)).2)] := by
  intro t sn edits h
  rw [debRun_chain debounceMs edits t sn none [] h (by intro d x hx; cases hx)]
  simp [debFlush]

/-- Witness for `debounced_fetch_once_with_last_state`: three `setName`
edits at 0, 100, 200 ms yield exactly one fetch, fired at 500 ms with the
last edit's state. -/
theorem debounced_fetch_once_with_last_state_witness :
    chainOk debounceMs
        [(0, ⟨"", "", "r", 1⟩), (100, ⟨"", "", "ri", 1⟩), (200, ⟨"", "", "rick", 1⟩)] = true
    ∧ debFlush (debRun debounceMs ⟨none, []⟩
        [(0, ⟨"", "", "r", 1⟩), (100, ⟨"", "", "ri", 1⟩), (200, ⟨"", "", "rick", 1⟩)])
      = [(500, ⟨"", "", "rick", 1⟩)] := by
  refine ⟨by decide, ?_⟩
  have h := debounced_fetch_once_with_last_state 0 ⟨"", "", "r", 1⟩
    [(100, ⟨"", "", "ri", 1⟩), (200, ⟨"", "", "rick", 1⟩)] (by decide)
  simpa [debounceMs] using h

/-! ## Event-loop traces of the second revision

Suspension happens only at the `await getCharacters(...)` boundary, so the
observable life of the component is a sequence of atomic events: arming the
debounce timer, a `handleFilter` invocation starting (timer fired, request
issued, `setIsLoading(true)`), a response resuming the suspended invocation
(success or failure), and unmount (the `useEffect` cleanup runs
`debouncedFilter.cancel()`).  Nothing in the code stamps requests with a
token or checks one on resume: a resuming continuation always applies its
response. -/

/-- One atomic event of the component's event loop.  `arriveOk`/`arriveErr`
carry the snapshot their `handleFilter` closure captured at issue time,
because the `router.push` on resume uses that closure's state. -/
inductive Ev where
  | armTimer
  | issue (snap : Snap)
  | arriveOk (snap : Snap) (d : ApiResponse)
  | arriveErr (snap : Snap)
  | dispose
deriving DecidableEq, Repr

/-- Observable component state across a trace: the displayed `characters`,
the loading flag, whether a debounce timer is armed, whether the component
has been unmounted, and the snapshots pushed to the URL so far. -/
structure CState where
  characters : List Character
  isLoading : Bool
  timerPending : Bool
  disposed : Bool
  writes : List Snap
deriving DecidableEq, Repr

/-- One event step, straight from the second revision's code: issuing sets
`isLoading`; a successful resume applies the response, pushes the captured
snapshot to the URL and clears `isLoading`; a failed resume only clears
`isLoading`; unmount cancels the armed timer.  A resume is applied
unconditionally — the code has no request token and no mounted guard. -/
def step (s : CState) (e : Ev) : CState :=
  match e with
  | .armTimer => { s with timerPending := true }
  | .issue _ => { s with isLoading := true, timerPending := false }
  | .arriveOk snap d =>
      { s with characters := d.results, isLoading := false,
               writes := s.writes ++ [snap] }
  | .arriveErr _ => { s with isLoading := false }
  | .dispose => { s with disposed := true, timerPending := false }

/-- Run a trace of events from a state. -/
def runTrace (s : CState) : List Ev → CState
  | [] => s
  | e :: es => runTrace (step s e) es

/-- The state right after hydration with seed results. -/
def initCState (seed : List Character) : CState :=
  { characters := seed, isLoading := false, timerPending := false,
    disposed := false, writes := [] }

/-- Snapshot of an earlier fetch A. -/
def snapA : Snap := ⟨"", "", "rick", 1⟩

/-- Snapshot of a later fetch B superseding A. -/
def snapB : Snap := ⟨"alive", "", "rick", 1⟩

/-- Response to fetch A. -/
def respA : ApiResponse := ⟨⟨1, 1, none, none⟩, [rickC]⟩

/-- Response to fetch B, with a different result set. -/
def respB : ApiResponse := ⟨⟨1, 1, none, none⟩, [mortyC]⟩

/-- Claim C1 counterexample: fetch A is issued, fetch B is issued while A is
in flight, B's response arrives first — and then A's late response is
applied, so the finally applied result set is A's, not B's.  There is no
request token; nothing discards the stale response. -/
theorem stale_response_wins_counterexample :
    (runTrace (initCState [])
        [Ev.issue snapA, Ev.issue snapB,
         Ev.arriveOk snapB respB, Ev.arriveOk snapA respA]).characters
      = respA.results
    ∧ respA.results ≠ respB.results := by
  exact ⟨rfl, by decide⟩

/-- Claim C1 as amended: responses are applied in network-arrival order,
unconditionally — the component keeps no request token, so whenever fetch B
is issued after fetch A but B's response arrives before A's, the finally
applied result set is A's (the stale one), whatever happened before. -/
theorem responses_apply_in_arrival_order :
    ∀ (s : CState) (pre : List Ev) (snA snB : Snap) (dA dB : ApiResponse),
      (runTrace s (pre ++ [Ev.issue snA, Ev.issue snB,
          Ev.arriveOk snB dB, Ev.arriveOk snA dA])).characters = dA.results := by
  intro s pre snA snB dA dB
  induction pre generalizing s with
  | nil => rfl
  | cons e es ih => exact ih (step s e)

/-- Claim C6 counterexample: disposing while fetch A is in flight does not
prevent the later response from being applied — after `dispose`, the
`arriveOk` step still changes `characters` (and appends a URL write), so the
Controller's state is mutated after disposal. -/
theorem inflight_response_applies_after_dispose_counterexample :
    (runTrace (initCState []) [Ev.issue snapA, Ev.dispose]).disposed = true
    ∧ (runTrace (initCState [])
          [Ev.issue snapA, Ev.dispose, Ev.arriveOk snapA respA]).characters
        ≠ (runTrace (initCState []) [Ev.issue snapA, Ev.dispose]).characters := by
  exact ⟨rfl, by decide⟩

/-- Claim C6 as amended: disposal synchronously cancels any pending debounce
timer (the `useEffect` cleanup calls `debouncedFilter.cancel()`), but an
in-flight fetch is not guarded — its resuming continuation still applies its
response after disposal, since the code has no token and no mounted flag. -/
theorem dispose_cancels_timer_not_inflight :
    ∀ (s : CState) (snap : Snap) (d : ApiResponse),
      (step s Ev.dispose).timerPending = false
      ∧ (step s Ev.dispose).disposed = true
      ∧ (step (step s Ev.dispose) (Ev.arriveOk snap d)).characters = d.results
      ∧ (step (step s Ev.dispose) (Ev.arriveOk snap d)).disposed = true := by
  exact fun s snap d => ⟨rfl, rfl, rfl, rfl⟩

/-! ## URL hydration (`getServerSideProps` of the second revision)

`context.query` values in the hosting framework are
`string | string[] | undefined`; the code takes a value only when
`typeof v === 'string'`, and parses `page` with `parseInt` (radix-free). -/

/-- A present query value: a single string or a repeated-key array. -/
inductive QVal where
  | str (s : String)
  | arr (l : List String)
deriving DecidableEq, Repr

/-- The recognized keys of `context.query`; `none` is an absent key. -/
structure SSQuery where
  page : Option QVal
  status : Option QVal
  gender : Option QVal
  name : Option QVal
deriving DecidableEq, Repr

/-- Whitespace skipped by JavaScript `parseInt`. -/
def isJsSpace (c : Char) : Bool :=
  c == ' ' || c == '\t' || c == '\n' || c == '\r' || c == '\x0b' || c == '\x0c'

/-- Decimal digit value. -/
def digitVal (c : Char) : Option Nat :=
  if '0' ≤ c ∧ c ≤ '9' then some (c.toNat - '0'.toNat) else none

/-- Hexadecimal digit value. -/
def hexVal (c : Char) : Option Nat :=
  if '0' ≤ c ∧ c ≤ '9' then some (c.toNat - '0'.toNat)
  else if 'a' ≤ c ∧ c ≤ 'f' then some (c.toNat - 'a'.toNat + 10)
  else if 'A' ≤ c ∧ c ≤ 'F' then some (c.toNat - 'A'.toNat + 10)
  else none

/-- Accumulate the longest leading run of digits; `none` when there is no
digit at all (JavaScript `NaN`). -/
def parseDigits (dv : Char → Option Nat) (base : Nat) :
    List Char → Option Nat → Option Nat
  | [], acc => acc
  | c :: cs, acc =>
      match dv c with
      | some v => parseDigits dv base cs (some (acc.getD 0 * base + v))
      | none => acc

/-- The unsigned body of `parseInt` with no radix argument: a `0x`/`0X`
prefix switches to base 16, otherwise base 10. -/
def parseIntBody (cs : List Char) : Option Nat :=
  match cs with
  | '0' :: 'x' :: rest => parseDigits hexVal 16 rest none
  | '0' :: 'X' :: rest => parseDigits hexVal 16 rest none
  | _ => parseDigits digitVal 10 cs none

/-- Model of JavaScript `parseInt(s)` (radix-free): skip leading whitespace,
optional sign, longest digit prefix; `none` models `NaN`. -/
def parseIntJs (s : String) : Option Int :=
  let cs := s.data.dropWhile isJsSpace
  match cs with
  | '-' :: rest => (parseIntBody rest).map (fun n => -(n : Int))
  | '+' :: rest => (parseIntBody rest).map (fun n => (n : Int))
  | _ => (parseIntBody cs).map (fun n => (n : Int))

/-- The seed props `getServerSideProps` computes from the query before
fetching; `currentPage = none` models the `NaN` that `parseInt` returns on a
digit-free string. -/
structure SeedProps where
  currentPage : Option Int
  initialStatus : String
  initialGender : String
  initialName : String
deriving DecidableEq, Repr

/-- The hydration step of `getServerSideProps` (second revision):
`typeof page === 'string' ? parseInt(page) : 1` and
`typeof v === 'string' ? v : ''` for the three filters. -/
def hydrateQuery (q : SSQuery) : SeedProps :=
  { currentPage :=
      match q.page with
      | some (QVal.str s) => parseIntJs s
      | _ => some 1
    initialStatus := match q.status with | some (QVal.str s) => s | _ => ""
    initialGender := match q.gender with | some (QVal.str s) => s | _ => ""
    initialName := match q.name with | some (QVal.str s) => s | _ => "" }

/-- Claim C8 counterexample: the URL query `?page=0` hydrates to a seed page
of 0, violating the FilterState invariant `page ≥ 1` — `parseInt` output is
not validated or clamped. -/
theorem hydrate_accepts_page_zero_counterexample :
    (hydrateQuery ⟨some (QVal.str "0"), none, none, none⟩).currentPage = some 0
    ∧ ¬ (1 ≤ (0 : Int)) := by
  exact ⟨rfl, by decide⟩

/-- Claim C8 as amended: hydration defaults `page` to 1 and the filters to
the empty string whenever the corresponding key is absent (or not a single
string), but a string-valued `page` key is fed through `parseInt` with no
validation, so the seed page can be 0, negative, or `NaN` and the `page ≥ 1`
invariant is not guaranteed. -/
theorem hydrate_defaults :
    (∀ st g n, (hydrateQuery ⟨none, st, g, n⟩).currentPage = some 1)
    ∧ (∀ xs st g n,
        (hydrateQuery ⟨some (QVal.arr xs), st, g, n⟩).currentPage = some 1)
    ∧ (∀ p g n, (hydrateQuery ⟨p, none, g, n⟩).initialStatus = "")
    ∧ (∀ p st n, (hydrateQuery ⟨p, st, none, n⟩).initialGender = "")
    ∧ (∀ p st g, (hydrateQuery ⟨p, st, g, none⟩).initialName = "")
    ∧ (∀ s st g n,
        (hydrateQuery ⟨some (QVal.str s), st, g, n⟩).currentPage = parseIntJs s)
    ∧ (hydrateQuery ⟨some (QVal.str "abc"), none, none, none⟩).currentPage = none := by
  exact ⟨fun st g n => rfl, fun xs st g n => rfl, fun p g n => rfl,
    fun p st n => rfl, fun p st g => rfl, fun s st g n => rfl, rfl⟩

end RickMorty
